import Mathlib

/-!
Verification of the keyboard-accessibility subsystem of
`accessibility-testing-mcp` (src/src/index.ts).

The browser is modelled as an oracle: each iteration of the Tab-walk loop of
`runKeyboardTests` interacts with the page at a fixed set of points (reading
the focused element, the role check, ARIA before/after snapshots, the URL
change after Enter, dialog checks, the dialog state after Escape).  One
`StepOracle` record holds the page's answers for one iteration; the walk is a
deterministic function of the focusable-element count and the oracle stream.
Page-only effects (key presses, waits, goto, focus resets) change no tracked
data and are not represented.  The fields `trapPathEscapes` and
`activationPathEscapes` of `WalkState` are instrumentation counters: the
control flow never reads them, they only count which branch pushed each
`DialogEscape` record.
-/

namespace A11yMCP

/-! ## Data model (src/src/index.ts lines 389-433) -/

structure KeyboardTrap where
  selector : String
  html : String
  issue : String
deriving DecidableEq

structure UnfocusableElement where
  selector : String
  html : String
  role : String
deriving DecidableEq

structure FocusOrderItem where
  index : Nat
  selector : String
  html : String
  tagName : String
deriving DecidableEq

structure DialogEscape where
  dialogSelector : String
  dialogHtml : String
  escapedSuccessfully : Bool
  note : String
deriving DecidableEq

structure ButtonActivation where
  selector : String
  html : String
  activated : Bool
  triggeredDialog : Bool
  expandedContent : Bool
  note : String
deriving DecidableEq

structure KeyboardTestResult where
  totalFocusableElements : Nat
  testedElements : Nat
  keyboardTraps : List KeyboardTrap
  unfocusableInteractive : List UnfocusableElement
  focusOrder : List FocusOrderItem
  dialogEscapes : List DialogEscape
  buttonActivations : List ButtonActivation
deriving DecidableEq

/-! ## Oracle: the page's answers for one iteration of the walk loop -/

/-- What `page.evaluate` returns for the focused element (lines 565-573). -/
structure FocusedInfo where
  selector : String
  html : String
  tagName : String
deriving DecidableEq

/-- The `dialogInfo` payload of `checkForDialog` (lines 533-541). -/
structure DialogInfo where
  selector : String
  html : String
deriving DecidableEq

/-- Return value of `checkForDialog` (lines 508-546). -/
structure DialogCheckResult where
  inDialog : Bool
  dialogInfo : Option DialogInfo
deriving DecidableEq

/-- The `aria-expanded` / `aria-pressed` / `aria-selected` snapshot
(lines 596-603): `getAttribute` yields a string or null. -/
structure AriaState where
  ariaExpanded : Option String
  ariaPressed : Option String
  ariaSelected : Option String
deriving DecidableEq

/-- Answers of the live page at each interaction point of one loop iteration. -/
structure StepOracle where
  /-- `document.activeElement` after the Tab press; `none` for body/root. -/
  currentFocused : Option FocusedInfo
  /-- the role / aria-expanded / aria-pressed evaluate of lines 587-593. -/
  roleCheck : Bool
  beforeState : AriaState
  /-- whether `page.url()` differs from the pre-Enter URL (line 614). -/
  urlChanged : Bool
  dialogAfterActivation : DialogCheckResult
  afterState : AriaState
  /-- `stillInDialog.inDialog` after Escape on the activation path (line 680). -/
  activationEscapeStillInDialog : Bool
  /-- `checkForDialog` result at the trap-detection branch (line 710). -/
  trapDialogCheck : DialogCheckResult
  /-- `stillInDialog.inDialog` after Escape on the trap path (line 720). -/
  trapEscapeStillInDialog : Bool
deriving DecidableEq

def defaultAria : AriaState := ⟨none, none, none⟩

def noDialog : DialogCheckResult := ⟨false, none⟩

/-- An iteration in which focus stayed on the document body. -/
def idleStep : StepOracle :=
  ⟨none, false, defaultAria, false, noDialog, defaultAria, false, noDialog, false⟩

/-! ## Walk state: the loop-local variables of `runKeyboardTests` -/

structure WalkState where
  testedElements : Nat
  keyboardTraps : List KeyboardTrap
  focusOrder : List FocusOrderItem
  dialogEscapes : List DialogEscape
  buttonActivations : List ButtonActivation
  previousFocusedSelector : Option String
  trapDetectionCount : Nat
  dialogEscapeAttempts : Nat
  navigationTriggeringSelectors : List String
  halted : Bool
  /-- instrumentation: `DialogEscape` records pushed by the trap path. -/
  trapPathEscapes : Nat
  /-- instrumentation: `DialogEscape` records pushed by the activation path. -/
  activationPathEscapes : Nat
deriving DecidableEq

def initialWalkState : WalkState :=
  { testedElements := 0, keyboardTraps := [], focusOrder := [], dialogEscapes := [],
    buttonActivations := [], previousFocusedSelector := none, trapDetectionCount := 0,
    dialogEscapeAttempts := 0, navigationTriggeringSelectors := [], halted := false,
    trapPathEscapes := 0, activationPathEscapes := 0 }

/-- `const maxDialogEscapes = 5` (line 503). -/
def maxDialogEscapes : Nat := 5

/-- `const maxTabs = Math.min(focusableElements.length + 10, 150)` (line 504). -/
def maxTabs (focusableCount : Nat) : Nat := min (focusableCount + 10) 150

/-- Lines 576-581: append the focused element to `focusOrder` with index
`result.testedElements + 1`. -/
def recordFocus (cf : FocusedInfo) (s : WalkState) : WalkState :=
  { s with focusOrder :=
      s.focusOrder ++ [⟨s.testedElements + 1, cf.selector, cf.html, cf.tagName⟩] }

/-- Lines 614-640: the probe's Enter press changed the URL.  The selector is
memoized, a `ButtonActivation` is recorded, trap state is reset,
`testedElements` is incremented and the iteration ends (`continue`) without
the wraparound check. -/
def navigationStep (cf : FocusedInfo) (s : WalkState) : WalkState :=
  { s with
    navigationTriggeringSelectors := cf.selector :: s.navigationTriggeringSelectors
    buttonActivations := s.buttonActivations ++
      [⟨cf.selector, cf.html, true, false, false,
        "Button caused URL navigation - returned to original page to continue testing"⟩]
    previousFocusedSelector := none
    trapDetectionCount := 0
    testedElements := s.testedElements + 1 }

/-- Lines 643-702: the probe's Enter press did not change the URL.  Classify
dialog/expand state, always record one `ButtonActivation`, and if a dialog
opened attempt Escape once and record one `DialogEscape`. -/
def activationStep (o : StepOracle) (cf : FocusedInfo) (s : WalkState) : WalkState :=
  let expandedContent :=
    (o.beforeState.ariaExpanded != o.afterState.ariaExpanded) ||
    (o.beforeState.ariaPressed != o.afterState.ariaPressed) ||
    (o.beforeState.ariaSelected != o.afterState.ariaSelected)
  let note :=
    if o.dialogAfterActivation.inDialog then "Button triggered a dialog/modal"
    else if expandedContent then "Button toggled expanded/pressed state"
    else "Button activated (no visible state change)"
  let s := { s with buttonActivations := s.buttonActivations ++
      [⟨cf.selector, cf.html, true, o.dialogAfterActivation.inDialog, expandedContent, note⟩] }
  match o.dialogAfterActivation.inDialog, o.dialogAfterActivation.dialogInfo with
  | true, some info =>
    { s with
      dialogEscapes := s.dialogEscapes ++
        [⟨info.selector, info.html, !o.activationEscapeStillInDialog,
          if o.activationEscapeStillInDialog then
            "Dialog opened by button could not be closed with Escape key"
          else
            "Successfully closed dialog opened by button activation"⟩]
      activationPathEscapes := s.activationPathEscapes + 1 }
  | _, _ => s

/-- Lines 770-776: record the previous selector, increment `testedElements`,
and break out of the loop on wraparound. -/
def endOfIteration (focusableCount : Nat) (cf : FocusedInfo) (s : WalkState) : WalkState :=
  let s := { s with
    previousFocusedSelector := some cf.selector
    testedElements := s.testedElements + 1 }
  if s.testedElements > focusableCount then { s with halted := true } else s

/-- Lines 705-768: trap detection.  Same selector as the previous step bumps
the repeat counter; at three repeats either escape a dialog (budgeted) or
record a `KeyboardTrap` and stop. -/
def trapCheck (focusableCount : Nat) (o : StepOracle) (cf : FocusedInfo)
    (s : WalkState) : WalkState :=
  if s.previousFocusedSelector = some cf.selector then
    let s := { s with trapDetectionCount := s.trapDetectionCount + 1 }
    if 3 ≤ s.trapDetectionCount then
      match o.trapDialogCheck.inDialog, o.trapDialogCheck.dialogInfo with
      | true, some info =>
        if s.dialogEscapeAttempts < maxDialogEscapes then
          let s := { s with
            dialogEscapeAttempts := s.dialogEscapeAttempts + 1
            trapPathEscapes := s.trapPathEscapes + 1
            dialogEscapes := s.dialogEscapes ++
              [(⟨info.selector, info.html, !o.trapEscapeStillInDialog,
                if o.trapEscapeStillInDialog then
                  "Dialog did not close with Escape key - may be intentional or a keyboard trap"
                else
                  "Successfully closed dialog with Escape key"⟩ : DialogEscape)] }
          if o.trapEscapeStillInDialog then
            { s with
              keyboardTraps := s.keyboardTraps ++
                [(⟨cf.selector, cf.html,
                  "Focus is trapped in a dialog that cannot be closed with Escape key"⟩ :
                  KeyboardTrap)]
              halted := true }
          else
            { s with trapDetectionCount := 0, previousFocusedSelector := none }
        else
          { s with
            keyboardTraps := s.keyboardTraps ++
              [(⟨cf.selector, cf.html,
                "Focus is trapped on this element - cannot Tab away after multiple attempts"⟩ :
                KeyboardTrap)]
            halted := true }
      | _, _ =>
        { s with
          keyboardTraps := s.keyboardTraps ++
            [(⟨cf.selector, cf.html,
              "Focus is trapped on this element - cannot Tab away after multiple attempts"⟩ :
              KeyboardTrap)]
          halted := true }
    else
      endOfIteration focusableCount cf s
  else
    endOfIteration focusableCount cf { s with trapDetectionCount := 0 }

/-- One iteration of the `for (let i = 0; i < maxTabs; i++)` loop
(lines 561-782).  A `break` in the source is modelled by the `halted` flag. -/
def stepWalk (focusableCount : Nat) (o : StepOracle) (s : WalkState) : WalkState :=
  if s.halted then s
  else
    match o.currentFocused with
    | none => { s with trapDetectionCount := 0, previousFocusedSelector := none }
    | some cf =>
      let s1 := recordFocus cf s
      if (cf.tagName == "button" || o.roleCheck) &&
          !(s1.navigationTriggeringSelectors.contains cf.selector) then
        if o.urlChanged then navigationStep cf s1
        else trapCheck focusableCount o cf (activationStep o cf s1)
      else trapCheck focusableCount o cf s1

/-- The walk state after `n` loop iterations. -/
def walkStates (focusableCount : Nat) (oracle : Nat → StepOracle) : Nat → WalkState
  | 0 => initialWalkState
  | n + 1 => stepWalk focusableCount (oracle n) (walkStates focusableCount oracle n)

/-- `runKeyboardTests` (lines 436-819): run the full loop and assemble the
result.  The focusable-element census and the independent unfocusable scan
are page reads, passed in as `focusableCount` and `unfocusable`. -/
def runKeyboardTests (focusableCount : Nat) (oracle : Nat → StepOracle)
    (unfocusable : List UnfocusableElement) : KeyboardTestResult :=
  let s := walkStates focusableCount oracle (maxTabs focusableCount)
  ⟨focusableCount, s.testedElements, s.keyboardTraps, unfocusable,
   s.focusOrder, s.dialogEscapes, s.buttonActivations⟩

/-! ## Unfocusable-Interactive Scanner (lines 785-814)

The scanner is a single `page.evaluate` over the DOM, independent of the
walk.  An element is modelled by the attributes the script reads. -/

structure ScanElement where
  tagName : String
  idAttr : String
  classAttr : String
  /-- the `tabIndex` property (effective tab index, may be negative). -/
  tabIndex : Int
  /-- `getAttribute('role')`; `none` for null. -/
  roleAttr : Option String
  /-- `hasAttribute('href')`. -/
  hasHref : Bool
  /-- carries an `onclick`, `onkeydown` or `onkeyup` attribute. -/
  hasClickOrKeyHandler : Bool
  outerHTML : String
  displayNone : Bool
  visibilityHidden : Bool
  /-- `getBoundingClientRect()` width, in whole pixels. -/
  width : Nat
  height : Nat
deriving DecidableEq

/-- The roles of the `querySelectorAll` on line 786. -/
def interactiveRoles : List String :=
  ["button", "link", "menuitem", "tab", "checkbox", "radio"]

/-- Whether the element matches the line-786 query
`[onclick], [onkeydown], [onkeyup], [role="button"], ...`. -/
def matchesInteractiveQuery (el : ScanElement) : Bool :=
  el.hasClickOrKeyHandler ||
    (match el.roleAttr with
     | some r => interactiveRoles.contains r
     | none => false)

/-- The `tagName + #id + .classes` selector built throughout the source
(for example line 805). -/
def buildSelector (tagName idAttr classAttr : String) : String :=
  tagName ++ (if idAttr = "" then "" else "#" ++ idAttr) ++
    (if classAttr = "" then ""
     else "." ++ String.intercalate "." ((classAttr.splitOn " ").filter (fun c => c ≠ "")))

/-- `['a', 'button', 'input', 'select', 'textarea']` (line 796). -/
def naturallyFocusableTags : List String := ["a", "button", "input", "select", "textarea"]

/-- Lines 796-803: keep an element when it is not a natively focusable tag,
not an anchor with `href`, has negative tab index, and is visible. -/
def scanKeeps (el : ScanElement) : Bool :=
  let isNaturallyFocusable := naturallyFocusableTags.contains el.tagName
  let hasHrefAnchor := el.tagName == "a" && el.hasHref
  !isNaturallyFocusable && !hasHrefAnchor && decide (el.tabIndex < 0) &&
    !el.displayNone && !el.visibilityHidden &&
    decide (0 < el.width) && decide (0 < el.height)

/-- The record pushed on lines 804-809. -/
def scanRecord (el : ScanElement) : UnfocusableElement :=
  ⟨buildSelector el.tagName el.idAttr el.classAttr,
   el.outerHTML.take 150,
   el.roleAttr.getD ""⟩

/-- The whole scan (lines 785-814): filter the query matches by the keep
condition and project each survivor to an `UnfocusableElement`. -/
def scanUnfocusable (els : List ScanElement) : List UnfocusableElement :=
  ((els.filter matchesInteractiveQuery).filter scanKeeps).map scanRecord

/-! ## `keyboardToAxeViolationsFormat` (lines 951-1007) -/

structure ViolationNode where
  html : String
  target : List String
  failureSummary : String
deriving DecidableEq

structure Violation where
  id : String
  impact : String
  tags : List String
  description : String
  help : String
  helpUrl : String
  nodes : List ViolationNode
deriving DecidableEq

/-- The `keyboard-trap` violation record (lines 956-968). -/
def trapViolation (r : KeyboardTestResult) : Violation :=
  ⟨"keyboard-trap", "critical", ["wcag2a", "wcag212", "keyboard"],
   "Ensure keyboard focus is not trapped on an element",
   "Focus must not be trapped in any component",
   "https://www.w3.org/WAI/WCAG21/Understanding/no-keyboard-trap.html",
   r.keyboardTraps.map (fun trap => ⟨trap.html, [trap.selector], trap.issue⟩)⟩

/-- `result.dialogEscapes.filter(d => !d.escapedSuccessfully)` (line 972). -/
def failedDialogEscapes (r : KeyboardTestResult) : List DialogEscape :=
  r.dialogEscapes.filter (fun d => !d.escapedSuccessfully)

/-- The `dialog-not-escapable` violation record (lines 974-986). -/
def dialogViolation (r : KeyboardTestResult) : Violation :=
  ⟨"dialog-not-escapable", "serious", ["wcag2a", "wcag212", "keyboard", "best-practice"],
   "Dialogs should be dismissible with Escape key",
   "Modal dialogs must provide a keyboard-accessible way to close them",
   "https://www.w3.org/WAI/ARIA/apg/patterns/dialog-modal/",
   (failedDialogEscapes r).map (fun d => ⟨d.dialogHtml, [d.dialogSelector], d.note⟩)⟩

/-- The failure summary string of line 1001. -/
def unfocusableSummary (role : String) : String :=
  "Element with role=\"" ++ (if role = "" then "none" else role) ++
    "\" has interactive behavior but is not keyboard focusable. " ++
    "Add tabindex=\"0\" or use a native interactive element."

/-- The `interactive-not-focusable` violation record (lines 991-1003). -/
def unfocusableViolation (r : KeyboardTestResult) : Violation :=
  ⟨"interactive-not-focusable", "serious", ["wcag2a", "wcag211", "keyboard"],
   "Interactive elements must be keyboard accessible",
   "Elements with interactive handlers or roles must be focusable",
   "https://www.w3.org/WAI/WCAG21/Understanding/keyboard.html",
   r.unfocusableInteractive.map (fun el => ⟨el.html, [el.selector], unfocusableSummary el.role⟩)⟩

/-- `keyboardToAxeViolationsFormat` (lines 951-1007): up to three synthetic
violation records, pushed in this order. -/
def keyboardToAxeViolationsFormat (r : KeyboardTestResult) : List Violation :=
  (if r.keyboardTraps.length > 0 then [trapViolation r] else []) ++
  (if (failedDialogEscapes r).length > 0 then [dialogViolation r] else []) ++
  (if r.unfocusableInteractive.length > 0 then [unfocusableViolation r] else [])

/-! ## `parseWcagLevel` (lines 64-90)

`WCAG_LEVEL_MAP` is a plain object literal, so the JavaScript `in` operator
also sees the properties `WCAG_LEVEL_MAP` inherits from `Object.prototype`;
`jsInWcagLevelMap` models that. -/

/-- The own keys of `WCAG_LEVEL_MAP` (lines 33-43). -/
def wcagLevelKeys : List String :=
  ["2.0_A", "2.0_AA", "2.0_AAA", "2.1_A", "2.1_AA", "2.1_AAA",
   "2.2_A", "2.2_AA", "2.2_AAA"]

/-- Properties every plain object inherits from `Object.prototype`, visible
to the `in` operator. -/
def objectProtoProps : List String :=
  ["constructor", "hasOwnProperty", "isPrototypeOf", "propertyIsEnumerable",
   "toLocaleString", "toString", "valueOf", "__proto__", "__defineGetter__",
   "__defineSetter__", "__lookupGetter__", "__lookupSetter__"]

/-- The JavaScript expression `s in WCAG_LEVEL_MAP`. -/
def jsInWcagLevelMap (s : String) : Bool :=
  wcagLevelKeys.contains s || objectProtoProps.contains s

/-- `DEFAULT_WCAG_LEVEL` (line 47). -/
def defaultWcagLevel : String := "2.1_AA"

/-- JavaScript `\s` white space (the members below cover the inputs the
theorems use; the full class adds more exotic Unicode spaces). -/
def jsWs (c : Char) : Bool :=
  c = ' ' || c = '\t' || c = '\n' || c = '\r' || c = '\x0b' || c = '\x0c' ||
    c = '\u00a0'

/-- `toLowerCase` for the ASCII range (the inputs the theorems exercise are
ASCII; JavaScript lowers them the same way). -/
def jsToLowerChar (c : Char) : Char :=
  if 'A' ≤ c ∧ c ≤ 'Z' then Char.ofNat (c.toNat + 32) else c

/-- `String.prototype.trim`: strip leading and trailing white space. -/
def jsTrim (cs : List Char) : List Char :=
  ((cs.dropWhile jsWs).reverse.dropWhile jsWs).reverse

/-- Split `s` at the first occurrence of `pat`: the part before and the part
after, when `pat` occurs at all. -/
def splitFirst (pat : List Char) : List Char → Option (List Char × List Char)
  | [] => none
  | c :: rest =>
    if pat.isPrefixOf (c :: rest) then some ([], (c :: rest).drop pat.length)
    else
      match splitFirst pat rest with
      | some (pre, suf) => some (c :: pre, suf)
      | none => none

/-- `s.replace(/pat\s*/, "")`: delete the first occurrence of the literal
`pat` together with the white space right after it. -/
def replaceFirstRemove (pat : String) (s : String) : String :=
  match splitFirst pat.data s.data with
  | some (pre, suf) => String.mk (pre ++ suf.dropWhile jsWs)
  | none => s

/-- `s.replace(/\s+/g, "_")`: each maximal white-space run becomes one `_`.
The flag says whether the previous character was in a run. -/
def collapseWsRuns (inRun : Bool) : List Char → List Char
  | [] => []
  | c :: rest =>
    if jsWs c then
      if inRun then collapseWsRuns true rest else '_' :: collapseWsRuns true rest
    else c :: collapseWsRuns false rest

/-- `s.replace(/_+/g, "_")`: each maximal underscore run becomes one `_`. -/
def collapseUnderscoreRuns (inRun : Bool) : List Char → List Char
  | [] => []
  | c :: rest =>
    if c = '_' then
      if inRun then collapseUnderscoreRuns true rest
      else '_' :: collapseUnderscoreRuns true rest
    else c :: collapseUnderscoreRuns false rest

/-- Lines 68-72: trim, lowercase, delete the first `wcag` (and trailing
space), turn space runs into underscores, delete the first `level` (and
trailing space), collapse underscore runs. -/
def normalizeWcagInput (s : String) : String :=
  let t := replaceFirstRemove "wcag" (String.mk ((jsTrim s.data).map jsToLowerChar))
  let t := String.mk (collapseWsRuns false t.data)
  let t := replaceFirstRemove "level" t
  String.mk (collapseUnderscoreRuns false t.data)

/-- The anchored match `^(\d)\.?(\d)?[_\s]*(a{1,3})$/i` (line 75): a digit,
an optional dot, an optional digit, separator characters, then one to three
`a`s.  Returns the captured major digit, minor digit (defaulted to `0` as on
line 78) and the level length. -/
def matchFlexible : List Char → Option (Char × Char × Nat)
  | [] => none
  | c :: rest =>
    if c.isDigit then
      let rest := match rest with
        | '.' :: r => r
        | r => r
      let (minor, rest) := match rest with
        | d :: r => if d.isDigit then (d, r) else ('0', d :: r)
        | [] => ('0', ([] : List Char))
      let rest := rest.dropWhile (fun ch => ch = '_' || jsWs ch)
      if rest.length ≥ 1 && rest.length ≤ 3 && rest.all (fun ch => ch = 'a' || ch = 'A') then
        some (c, minor, rest.length)
      else none
    else none

/-- `parseWcagLevel` (lines 64-90).  `none` models an unset `WCAG_LEVEL`
environment variable; the empty string is falsy in JavaScript, so both give
the default. -/
def parseWcagLevel (input : Option String) : String :=
  match input with
  | none => defaultWcagLevel
  | some s =>
    if s = "" then defaultWcagLevel
    else
      let directOrDefault := if jsInWcagLevelMap s then s else defaultWcagLevel
      match matchFlexible (normalizeWcagInput s).data with
      | some (major, minor, n) =>
        let key := String.singleton major ++ "." ++ String.singleton minor ++ "_" ++
          String.mk (List.replicate n 'A')
        if jsInWcagLevelMap key then key else directOrDefault
      | none => directOrDefault

/-! ## Concrete pages, as oracle streams, for witnesses and counterexamples -/

/-- An oracle stream from a finite script; past its end focus stays on the
body (the page has run out of focusable content). -/
def oracleOfList (l : List StepOracle) (n : Nat) : StepOracle := l.getD n idleStep

/-- An iteration whose Tab lands on an element with the given selector and
tag, with no further page reaction. -/
def focusStep (sel tag : String) : StepOracle :=
  { idleStep with currentFocused := some ⟨sel, "<" ++ tag ++ ">", tag⟩ }

/-- An iteration focusing a button whose Enter probe navigates away. -/
def navButtonStep (sel : String) : StepOracle :=
  { focusStep sel "button" with urlChanged := true }

/-- A page with two focusable elements, both navigation-triggering buttons:
after each probe's recovery the next Tab lands on the first button again. -/
def twoNavOracle : Nat → StepOracle :=
  oracleOfList [navButtonStep "button#b1", focusStep "button#b1" "button",
    navButtonStep "button#b2", focusStep "button#b1" "button"]

/-- A page whose Tab target keeps refocusing itself, outside any dialog:
the plain keyboard-trap scenario (Scenario B of the spec). -/
def trapOracle : Nat → StepOracle :=
  oracleOfList [focusStep "div#trap" "div", focusStep "div#trap" "div",
    focusStep "div#trap" "div", focusStep "div#trap" "div"]

/-- An iteration stuck on the same element, inside a dialog that the
trap-path Escape closes successfully. -/
def escTrapStep : StepOracle :=
  { focusStep "div#d" "div" with
    trapDialogCheck := ⟨true, some ⟨"div#modal", "<div>"⟩⟩
    trapEscapeStillInDialog := false }

/-- Focus sticks on one element for four steps, the trap-suspected dialog is
escaped successfully, then a fresh element is focused. -/
def escapeOracle : Nat → StepOracle :=
  oracleOfList [focusStep "div#d" "div", focusStep "div#d" "div",
    focusStep "div#d" "div", escTrapStep, focusStep "a#x" "a"]

/-- An iteration focusing a button whose Enter opens a dialog that the
activation-path Escape closes. -/
def dlgButtonStep (sel : String) : StepOracle :=
  { focusStep sel "button" with
    dialogAfterActivation := ⟨true, some ⟨"div#modal", "<div>"⟩⟩
    activationEscapeStillInDialog := false }

/-- Six distinct buttons, each opening an Escape-closable dialog. -/
def sixDialogOracle : Nat → StepOracle :=
  oracleOfList [dlgButtonStep "button#m0", dlgButtonStep "button#m1",
    dlgButtonStep "button#m2", dlgButtonStep "button#m3",
    dlgButtonStep "button#m4", dlgButtonStep "button#m5"]

/-- Scenario E of the spec: a visible `<button role="checkbox"
tabindex="-1">`. -/
def scenarioE : ScanElement :=
  { tagName := "button", idAttr := "", classAttr := "", tabIndex := -1,
    roleAttr := some "checkbox", hasHref := false, hasClickOrKeyHandler := false,
    outerHTML := "<button role=\"checkbox\" tabindex=\"-1\">x</button>",
    displayNone := false, visibilityHidden := false, width := 10, height := 10 }

/-! ## The walk's master invariant -/

/-- Facts every reachable walk state satisfies: a recorded trap halts the
walk and is unique; the dialog-escape budget is respected and counts exactly
the trap-path `DialogEscape` records; every `DialogEscape` record came from
one of the two push sites; and `focusOrder` outruns `testedElements` only by
trap-path iterations (which push without incrementing). -/
def Inv (s : WalkState) : Prop :=
  (s.keyboardTraps = [] ∨ s.halted = true) ∧
  s.keyboardTraps.length ≤ 1 ∧
  s.dialogEscapeAttempts ≤ maxDialogEscapes ∧
  s.trapPathEscapes = s.dialogEscapeAttempts ∧
  s.dialogEscapes.length = s.trapPathEscapes + s.activationPathEscapes ∧
  s.focusOrder.length ≤
    s.testedElements + s.dialogEscapeAttempts + s.keyboardTraps.length

/-! ## Generic lemmas about the walk -/

lemma stepWalk_halted (fc : Nat) (o : StepOracle) (s : WalkState)
    (h : s.halted = true) : stepWalk fc o s = s := by
  unfold stepWalk
  simp [h]

lemma walkStates_stable (fc : Nat) (oracle : Nat → StepOracle) (m : Nat)
    (h : (walkStates fc oracle m).halted = true) :
    ∀ n, m ≤ n → walkStates fc oracle n = walkStates fc oracle m := by
  intro n hmn
  induction n with
  | zero =>
    have : m = 0 := Nat.le_zero.mp hmn
    simp [this]
  | succ k ih =>
    rcases Nat.lt_or_ge m (k + 1) with hlt | hge
    · have hk : m ≤ k := Nat.lt_succ_iff.mp hlt
      have hkeq := ih hk
      calc walkStates fc oracle (k + 1)
          = stepWalk fc (oracle k) (walkStates fc oracle k) := rfl
        _ = stepWalk fc (oracle k) (walkStates fc oracle m) := by rw [hkeq]
        _ = walkStates fc oracle m := stepWalk_halted _ _ _ h
    · have : m = k + 1 := Nat.le_antisymm hmn hge
      simp [this]

/-- `trapCheck` never touches `buttonActivations`, `activationPathEscapes`,
`focusOrder` or `navigationTriggeringSelectors`. -/
lemma trapCheck_frame (fc : Nat) (o : StepOracle) (cf : FocusedInfo)
    (t : WalkState) :
    (trapCheck fc o cf t).buttonActivations = t.buttonActivations ∧
    (trapCheck fc o cf t).activationPathEscapes = t.activationPathEscapes ∧
    (trapCheck fc o cf t).focusOrder = t.focusOrder ∧
    (trapCheck fc o cf t).navigationTriggeringSelectors =
      t.navigationTriggeringSelectors := by
  simp only [trapCheck, endOfIteration]
  repeat' split
  all_goals simp

/-- `activationStep` never touches the trap bookkeeping, `focusOrder`,
`testedElements` or the halt flag. -/
lemma activationStep_frame (o : StepOracle) (cf : FocusedInfo) (t : WalkState) :
    (activationStep o cf t).keyboardTraps = t.keyboardTraps ∧
    (activationStep o cf t).focusOrder = t.focusOrder ∧
    (activationStep o cf t).testedElements = t.testedElements ∧
    (activationStep o cf t).dialogEscapeAttempts = t.dialogEscapeAttempts ∧
    (activationStep o cf t).trapPathEscapes = t.trapPathEscapes ∧
    (activationStep o cf t).halted = t.halted ∧
    (activationStep o cf t).previousFocusedSelector = t.previousFocusedSelector ∧
    (activationStep o cf t).trapDetectionCount = t.trapDetectionCount ∧
    (activationStep o cf t).navigationTriggeringSelectors =
      t.navigationTriggeringSelectors := by
  simp only [activationStep]
  repeat' split
  all_goals simp

/-- The `DialogEscape` records `activationStep` pushes are counted, one for
one, by `activationPathEscapes`. -/
lemma activationStep_escapes (o : StepOracle) (cf : FocusedInfo) (t : WalkState) :
    (activationStep o cf t).dialogEscapes.length + t.activationPathEscapes =
      t.dialogEscapes.length + (activationStep o cf t).activationPathEscapes := by
  simp only [activationStep]
  repeat' split
  all_goals simp
  all_goals omega

/-- Preservation of the master invariant by `trapCheck`, from the facts that
hold for the mid-iteration state it receives. -/
lemma trapCheck_inv (fc : Nat) (o : StepOracle) (cf : FocusedInfo)
    (t : WalkState)
    (h1 : t.keyboardTraps = [])
    (h3 : t.dialogEscapeAttempts ≤ maxDialogEscapes)
    (h4 : t.trapPathEscapes = t.dialogEscapeAttempts)
    (h5 : t.dialogEscapes.length = t.trapPathEscapes + t.activationPathEscapes)
    (h6 : t.focusOrder.length ≤ t.testedElements + t.dialogEscapeAttempts + 1) :
    Inv (trapCheck fc o cf t) := by
  simp only [trapCheck, endOfIteration, Inv, maxDialogEscapes] at *
  repeat' split
  all_goals simp_all
  all_goals omega

lemma inv_initial : Inv initialWalkState := by
  simp [Inv, initialWalkState]

lemma inv_step (fc : Nat) (o : StepOracle) (s : WalkState) (h : Inv s) :
    Inv (stepWalk fc o s) := by
  obtain ⟨h1, h2, h3, h4, h5, h6⟩ := h
  by_cases hh : s.halted = true
  · rw [stepWalk_halted fc o s hh]
    exact ⟨h1, h2, h3, h4, h5, h6⟩
  · have htraps : s.keyboardTraps = [] := by
      rcases h1 with e | e
      · exact e
      · exact absurd e hh
    cases hfoc : o.currentFocused with
    | none =>
      simp only [stepWalk, hfoc, if_neg hh]
      exact ⟨Or.inl htraps, h2, h3, h4, h5, h6⟩
    | some cf =>
      have hrec6 : (recordFocus cf s).focusOrder.length ≤
          (recordFocus cf s).testedElements +
            (recordFocus cf s).dialogEscapeAttempts + 1 := by
        simp only [recordFocus, List.length_append, List.length_cons,
          List.length_nil]
        simp only [htraps, List.length_nil] at h6
        omega
      simp only [stepWalk, hfoc, if_neg hh]
      split
      · split
        · refine ⟨Or.inl ?_, ?_, ?_, ?_, ?_, ?_⟩
          · simpa [navigationStep, recordFocus] using htraps
          · simp [navigationStep, recordFocus, htraps]
          · simpa [navigationStep, recordFocus] using h3
          · simpa [navigationStep, recordFocus] using h4
          · simpa [navigationStep, recordFocus] using h5
          · simp only [navigationStep, recordFocus, htraps] at h6 ⊢
            simp at h6 ⊢
            omega
        · obtain ⟨a1, a2, a3, a4, a5, a6, a7, a8, a9⟩ :=
            activationStep_frame o cf (recordFocus cf s)
          have he := activationStep_escapes o cf (recordFocus cf s)
          have hbase : (recordFocus cf s).dialogEscapes.length =
              (recordFocus cf s).trapPathEscapes +
                (recordFocus cf s).activationPathEscapes := h5
          apply trapCheck_inv
          · rw [a1]
            exact htraps
          · rw [a4]
            exact h3
          · rw [a5, a4]
            exact h4
          · omega
          · rw [a2, a3, a4]
            exact hrec6
      · apply trapCheck_inv
        · exact htraps
        · exact h3
        · exact h4
        · exact h5
        · exact hrec6

/-- Every reachable walk state satisfies the master invariant. -/
lemma inv_walkStates (fc : Nat) (oracle : Nat → StepOracle) :
    ∀ n, Inv (walkStates fc oracle n) := by
  intro n
  induction n with
  | zero => exact inv_initial
  | succ k ih => exact inv_step fc (oracle k) (walkStates fc oracle k) ih

/-- `trapCheck` increments `testedElements` at most once and re-establishes
the census bound: a non-halting outcome keeps `testedElements ≤ fc`. -/
lemma trapCheck_tested_bound (fc : Nat) (o : StepOracle) (cf : FocusedInfo)
    (t : WalkState) (ht : t.testedElements ≤ fc) :
    ((trapCheck fc o cf t).halted = false →
      (trapCheck fc o cf t).testedElements ≤ fc) ∧
    (trapCheck fc o cf t).testedElements ≤ fc + 1 := by
  simp only [trapCheck, endOfIteration]
  repeat' split
  all_goals simp_all
  all_goals omega

/-- When no probe ever observes a URL change, `testedElements` stays within
the census while the walk runs and within census + 1 after the final
wraparound increment. -/
lemma tested_le_nav_free (fc : Nat) (oracle : Nat → StepOracle)
    (hnav : ∀ n, (oracle n).urlChanged = false) :
    ∀ n, ((walkStates fc oracle n).halted = false →
            (walkStates fc oracle n).testedElements ≤ fc) ∧
         (walkStates fc oracle n).testedElements ≤ fc + 1 := by
  intro n
  induction n with
  | zero => simp [walkStates, initialWalkState]
  | succ k ih =>
    obtain ⟨ih1, ih2⟩ := ih
    rw [walkStates]
    by_cases hh : (walkStates fc oracle k).halted = true
    · rw [stepWalk_halted fc (oracle k) _ hh]
      exact ⟨ih1, ih2⟩
    · have hts : (walkStates fc oracle k).testedElements ≤ fc :=
        ih1 (by simpa using hh)
      cases hfoc : (oracle k).currentFocused with
      | none =>
        simp only [stepWalk, hfoc, if_neg hh]
        exact ⟨fun _ => hts, Nat.le_succ_of_le hts⟩
      | some cf =>
        simp only [stepWalk, hfoc, if_neg hh]
        split
        · split
          · next hurl => simp [hnav k] at hurl
          · obtain ⟨a1, a2, a3, a4, a5, a6, a7, a8, a9⟩ :=
              activationStep_frame (oracle k) cf (recordFocus cf (walkStates fc oracle k))
            refine trapCheck_tested_bound fc (oracle k) cf _ ?_
            rw [a3]
            exact hts
        · exact trapCheck_tested_bound fc (oracle k) cf _ hts

/-- `trapCheck` keeps `focusOrder` unchanged; when the step's dialog check
fails or the Escape does not close the dialog (no successful trap-path
escape), every non-halting outcome increments `testedElements`. -/
lemma trapCheck_no_escape_facts (fc : Nat) (o : StepOracle) (cf : FocusedInfo)
    (t : WalkState)
    (hesc : o.trapDialogCheck.inDialog = false ∨ o.trapEscapeStillInDialog = true) :
    (trapCheck fc o cf t).focusOrder = t.focusOrder ∧
    ((trapCheck fc o cf t).halted = false →
      (trapCheck fc o cf t).testedElements = t.testedElements + 1) := by
  simp only [trapCheck, endOfIteration]
  repeat' split
  all_goals simp_all

lemma recordFocus_len (cf : FocusedInfo) (s : WalkState) :
    (recordFocus cf s).focusOrder.length = s.focusOrder.length + 1 := by
  simp [recordFocus]

lemma range1_concat (n : Nat) :
    List.range' 1 (n + 1) = List.range' 1 n ++ [n + 1] := by
  simpa [Nat.add_comm] using @List.range'_concat 1 1 n

/-- When no trap-suspected dialog is ever escaped successfully, the
`focusOrder` indices stay the consecutive integers from 1, and while the
walk runs `testedElements` equals the number of items recorded. -/
lemma focusOrder_indices_inv (fc : Nat) (oracle : Nat → StepOracle)
    (hesc : ∀ n, (oracle n).trapDialogCheck.inDialog = false ∨
      (oracle n).trapEscapeStillInDialog = true) :
    ∀ n, (walkStates fc oracle n).focusOrder.map FocusOrderItem.index =
           List.range' 1 (walkStates fc oracle n).focusOrder.length ∧
         ((walkStates fc oracle n).halted = false →
           (walkStates fc oracle n).testedElements =
             (walkStates fc oracle n).focusOrder.length) := by
  intro n
  induction n with
  | zero => simp [walkStates, initialWalkState]
  | succ k ih =>
    obtain ⟨ih1, ih2⟩ := ih
    rw [walkStates]
    by_cases hh : (walkStates fc oracle k).halted = true
    · rw [stepWalk_halted fc (oracle k) _ hh]
      exact ⟨ih1, ih2⟩
    · have heq : (walkStates fc oracle k).testedElements =
          (walkStates fc oracle k).focusOrder.length := ih2 (by simpa using hh)
      cases hfoc : (oracle k).currentFocused with
      | none =>
        simp only [stepWalk, hfoc, if_neg hh]
        exact ⟨ih1, fun _ => heq⟩
      | some cf =>
        have hkey : (recordFocus cf (walkStates fc oracle k)).focusOrder.map
              FocusOrderItem.index =
            List.range' 1
              (recordFocus cf (walkStates fc oracle k)).focusOrder.length := by
          simp only [recordFocus, List.map_append, List.length_append,
            List.map_cons, List.map_nil, List.length_cons, List.length_nil]
          rw [ih1, heq, range1_concat]
        have hklen := recordFocus_len cf (walkStates fc oracle k)
        simp only [stepWalk, hfoc, if_neg hh]
        split
        · split
          · constructor
            · exact hkey
            · intro _
              show (walkStates fc oracle k).testedElements + 1 =
                (recordFocus cf (walkStates fc oracle k)).focusOrder.length
              rw [hklen, heq]
          · have hf := trapCheck_no_escape_facts fc (oracle k) cf
              (activationStep (oracle k) cf (recordFocus cf (walkStates fc oracle k)))
              (hesc k)
            obtain ⟨a1, a2, a3, a4, a5, a6, a7, a8, a9⟩ :=
              activationStep_frame (oracle k) cf (recordFocus cf (walkStates fc oracle k))
            constructor
            · rw [hf.1, a2]
              exact hkey
            · intro hhf
              rw [hf.2 hhf, hf.1, a2, a3, hklen]
              show (walkStates fc oracle k).testedElements + 1 =
                (walkStates fc oracle k).focusOrder.length + 1
              rw [heq]
        · have hf := trapCheck_no_escape_facts fc (oracle k) cf
            (recordFocus cf (walkStates fc oracle k)) (hesc k)
          constructor
          · rw [hf.1]
            exact hkey
          · intro hhf
            rw [hf.2 hhf, hf.1, hklen]
            show (walkStates fc oracle k).testedElements + 1 =
              (walkStates fc oracle k).focusOrder.length + 1
            rw [heq]

/-- One step only ever extends the navigation-memoization set. -/
lemma stepWalk_navset_mono (fc : Nat) (o : StepOracle) (s : WalkState) :
    s.navigationTriggeringSelectors ⊆
      (stepWalk fc o s).navigationTriggeringSelectors := by
  by_cases hh : s.halted = true
  · rw [stepWalk_halted fc o s hh]
    exact List.Subset.refl _
  · cases hfoc : o.currentFocused with
    | none =>
      simp only [stepWalk, hfoc, if_neg hh]
      exact List.Subset.refl _
    | some cf =>
      simp only [stepWalk, hfoc, if_neg hh]
      split
      · split
        · exact show s.navigationTriggeringSelectors ⊆
            cf.selector :: s.navigationTriggeringSelectors from
              List.subset_cons_self _ _
        · rw [(trapCheck_frame fc o cf _).2.2.2,
            (activationStep_frame o cf _).2.2.2.2.2.2.2.2]
          exact List.Subset.refl _
      · rw [(trapCheck_frame fc o cf _).2.2.2]
        exact List.Subset.refl _

lemma walkStates_navset_mono (fc : Nat) (oracle : Nat → StepOracle) (m : Nat) :
    ∀ n, m ≤ n →
      (walkStates fc oracle m).navigationTriggeringSelectors ⊆
        (walkStates fc oracle n).navigationTriggeringSelectors := by
  intro n hmn
  induction n with
  | zero =>
    have : m = 0 := Nat.le_zero.mp hmn
    simp [this]
  | succ k ih =>
    rcases Nat.lt_or_ge m (k + 1) with hlt | hge
    · have hk : m ≤ k := Nat.lt_succ_iff.mp hlt
      exact (ih hk).trans (stepWalk_navset_mono fc (oracle k) (walkStates fc oracle k))
    · have : m = k + 1 := Nat.le_antisymm hmn hge
      simp [this]

/-- A step whose focused element carries a memoized navigation-triggering
selector records no `ButtonActivation` and no activation-path
`DialogEscape`: the probe is skipped. -/
lemma stepWalk_skips_memoized (fc : Nat) (o : StepOracle) (s : WalkState)
    (cf : FocusedInfo) (hfoc : o.currentFocused = some cf)
    (hmem : cf.selector ∈ s.navigationTriggeringSelectors) :
    (stepWalk fc o s).buttonActivations = s.buttonActivations ∧
    (stepWalk fc o s).activationPathEscapes = s.activationPathEscapes := by
  by_cases hh : s.halted = true
  · rw [stepWalk_halted fc o s hh]
    exact ⟨rfl, rfl⟩
  · have hcont : (recordFocus cf s).navigationTriggeringSelectors.contains
        cf.selector = true := List.elem_eq_true_of_mem hmem
    simp only [stepWalk, hfoc, if_neg hh, hcont, Bool.not_true, Bool.and_false,
      if_false]
    obtain ⟨b1, b2, b3, b4⟩ := trapCheck_frame fc o cf (recordFocus cf s)
    exact ⟨b1, b2⟩

/-- Facts of the form `p x` hold for every answer a finite oracle script
gives, provided they hold for every scripted step and the idle default. -/
lemma getD_forall {α : Type} (p : α → Prop) (d : α) (hd : p d) :
    ∀ (l : List α), (∀ x ∈ l, p x) → ∀ n, p (l.getD n d)
  | [], _, n => by simpa using hd
  | a :: l, h, 0 => h a (List.mem_cons_self a l)
  | a :: l, h, n + 1 => by
    simpa using getD_forall p d hd l (fun x hx => h x (List.mem_cons_of_mem a hx)) n

/-! ## The claims -/

/-- Claim C1, amended: for runs of the keyboard test in which no activation
probe observes a URL change, the returned result satisfies
`testedElements <= totalFocusableElements + 1`.  (A probe-navigation step
increments `testedElements` and continues without the wraparound check, so
runs with navigating probes can exceed the bound; see the counterexample.) -/
theorem C1_testedElements_bound (fc : Nat) (oracle : Nat → StepOracle)
    (u : List UnfocusableElement)
    (hnav : ∀ n, (oracle n).urlChanged = false) :
    (runKeyboardTests fc oracle u).testedElements ≤
      (runKeyboardTests fc oracle u).totalFocusableElements + 1 := by
  have h := (tested_le_nav_free fc oracle hnav (maxTabs fc)).2
  simpa [runKeyboardTests] using h

/-- Claim C1, counterexample: a page with two focusable elements, both
navigation-triggering buttons, ends with `testedElements = 4 > 2 + 1`. -/
theorem C1_counterexample :
    ¬ ((runKeyboardTests 2 twoNavOracle []).testedElements ≤
        (runKeyboardTests 2 twoNavOracle []).totalFocusableElements + 1) := by
  decide

/-- Claim C1, witness: the amended bound evaluated on the concrete trap
page, whose probes never navigate. -/
theorem C1_witness :
    (runKeyboardTests 5 trapOracle []).testedElements ≤
      (runKeyboardTests 5 trapOracle []).totalFocusableElements + 1 :=
  C1_testedElements_bound 5 trapOracle []
    (fun n => getD_forall (fun o => o.urlChanged = false) idleStep rfl _
      (by intro x hx; simp at hx; subst hx; rfl) n)

/-- Claim C2: once a `KeyboardTrap` is recorded the walk is over: every
later state has the same `focusOrder` (no further `FocusOrderItem` is
appended) and the same trap list, and `keyboardTraps` never holds more than
one entry. -/
theorem C2_trap_terminal (fc : Nat) (oracle : Nat → StepOracle) (m n : Nat)
    (hmn : m ≤ n) (htrap : (walkStates fc oracle m).keyboardTraps ≠ []) :
    ((walkStates fc oracle n).focusOrder = (walkStates fc oracle m).focusOrder ∧
     (walkStates fc oracle n).keyboardTraps =
       (walkStates fc oracle m).keyboardTraps) ∧
    (walkStates fc oracle n).keyboardTraps.length ≤ 1 := by
  have hinv := inv_walkStates fc oracle m
  have hhalt : (walkStates fc oracle m).halted = true := by
    rcases hinv.1 with e | e
    · exact absurd e htrap
    · exact e
  have hstab := walkStates_stable fc oracle m hhalt n hmn
  refine ⟨⟨by rw [hstab], by rw [hstab]⟩, ?_⟩
  rw [hstab]
  exact hinv.2.1

/-- Claim C2, witness: on the concrete trap page the trap is recorded by
step 4 and steps 4-6 leave the walk unchanged. -/
theorem C2_witness :
    ((walkStates 5 trapOracle 6).focusOrder =
       (walkStates 5 trapOracle 4).focusOrder ∧
     (walkStates 5 trapOracle 6).keyboardTraps =
       (walkStates 5 trapOracle 4).keyboardTraps) ∧
    (walkStates 5 trapOracle 6).keyboardTraps.length ≤ 1 :=
  C2_trap_terminal 5 trapOracle 4 6 (by decide) (by decide)

/-- Claim C3, amended: for runs in which no trap-suspected dialog is escaped
successfully, the `focusOrder` indices are exactly the consecutive integers
1, 2, ... with no gaps or duplicates.  (A successful trap-path escape
continues the walk without incrementing `testedElements`, so the next item
repeats the previous index; see the counterexample.) -/
theorem C3_focusOrder_indices (fc : Nat) (oracle : Nat → StepOracle)
    (u : List UnfocusableElement)
    (hesc : ∀ n, (oracle n).trapDialogCheck.inDialog = false ∨
      (oracle n).trapEscapeStillInDialog = true) :
    (runKeyboardTests fc oracle u).focusOrder.map FocusOrderItem.index =
      List.range' 1 (runKeyboardTests fc oracle u).focusOrder.length := by
  have h := (focusOrder_indices_inv fc oracle hesc (maxTabs fc)).1
  simpa [runKeyboardTests] using h

/-- Claim C3, counterexample: after a successful trap-path dialog escape the
walk records indices 1, 2, 3, 4, 4 — the index 4 repeats. -/
theorem C3_counterexample :
    (runKeyboardTests 5 escapeOracle []).focusOrder.map FocusOrderItem.index =
      [1, 2, 3, 4, 4] ∧
    (runKeyboardTests 5 escapeOracle []).focusOrder.map FocusOrderItem.index ≠
      List.range' 1 (runKeyboardTests 5 escapeOracle []).focusOrder.length := by
  decide

/-- Claim C3, witness: the amended statement evaluated on the concrete trap
page (no dialog is ever detected), where the indices are 1, 2, 3, 4. -/
theorem C3_witness :
    (runKeyboardTests 5 trapOracle []).focusOrder.map FocusOrderItem.index =
      List.range' 1 (runKeyboardTests 5 trapOracle []).focusOrder.length :=
  C3_focusOrder_indices 5 trapOracle []
    (fun n => getD_forall
      (fun o => o.trapDialogCheck.inDialog = false ∨ o.trapEscapeStillInDialog = true)
      idleStep (Or.inl rfl) _
      (by intro x hx; simp at hx; subst hx; exact Or.inl rfl) n)

/-- Claim C4, amended: `focusOrder.length` can exceed `testedElements` —
each trap-path iteration appends a `FocusOrderItem` without incrementing
`testedElements` — but only by the escape budget plus the terminal trap:
`focusOrder.length <= testedElements + 5 + keyboardTraps.length`, and
`keyboardTraps.length <= 1`. -/
theorem C4_focusOrder_length_bound (fc : Nat) (oracle : Nat → StepOracle)
    (u : List UnfocusableElement) :
    (runKeyboardTests fc oracle u).focusOrder.length ≤
      (runKeyboardTests fc oracle u).testedElements + maxDialogEscapes +
        (runKeyboardTests fc oracle u).keyboardTraps.length ∧
    (runKeyboardTests fc oracle u).keyboardTraps.length ≤ 1 := by
  obtain ⟨-, h2, h3, -, -, h6⟩ := inv_walkStates fc oracle (maxTabs fc)
  simp only [runKeyboardTests]
  exact ⟨by omega, h2⟩

/-- Claim C4, counterexample: the plain trap run records four
`FocusOrderItem`s but only three tested elements. -/
theorem C4_counterexample :
    ¬ ((runKeyboardTests 5 trapOracle []).focusOrder.length ≤
        (runKeyboardTests 5 trapOracle []).testedElements) := by
  decide

/-- Claim C5: across one walk, at most 5 `DialogEscape` records are produced
by the trap-detection path: `trapPathEscapes` counts exactly those records
and always equals the budget counter `dialogEscapeAttempts`, which the guard
keeps at or below `maxDialogEscapes = 5`. -/
theorem C5_trap_escape_budget (fc : Nat) (oracle : Nat → StepOracle) (n : Nat) :
    (walkStates fc oracle n).trapPathEscapes ≤ maxDialogEscapes ∧
    (walkStates fc oracle n).trapPathEscapes =
      (walkStates fc oracle n).dialogEscapeAttempts := by
  obtain ⟨-, -, h3, h4, -, -⟩ := inv_walkStates fc oracle n
  exact ⟨by omega, h4⟩

/-- Claim C6: once a selector is memoized as navigation-triggering, a later
step focusing an element with that selector skips the Activation Prober: it
records no `ButtonActivation` and no activation-path `DialogEscape`. -/
theorem C6_navigation_memoization (fc : Nat) (oracle : Nat → StepOracle)
    (i j : Nat) (hij : i < j) (sel : String) (cf : FocusedInfo)
    (hmem : sel ∈ (walkStates fc oracle (i + 1)).navigationTriggeringSelectors)
    (hfoc : (oracle j).currentFocused = some cf) (hsel : cf.selector = sel) :
    (walkStates fc oracle (j + 1)).buttonActivations =
      (walkStates fc oracle j).buttonActivations ∧
    (walkStates fc oracle (j + 1)).activationPathEscapes =
      (walkStates fc oracle j).activationPathEscapes := by
  have hmem2 : cf.selector ∈
      (walkStates fc oracle j).navigationTriggeringSelectors := by
    rw [hsel]
    exact walkStates_navset_mono fc oracle (i + 1) j hij hmem
  exact stepWalk_skips_memoized fc (oracle j) (walkStates fc oracle j) cf hfoc hmem2

/-- Claim C6, witness: on the two-navigating-buttons page, step 0 memoizes
`button#b1`; step 1 focuses it again and probes nothing. -/
theorem C6_witness :
    (walkStates 2 twoNavOracle 2).buttonActivations =
      (walkStates 2 twoNavOracle 1).buttonActivations ∧
    (walkStates 2 twoNavOracle 2).activationPathEscapes =
      (walkStates 2 twoNavOracle 1).activationPathEscapes :=
  C6_navigation_memoization 2 twoNavOracle 0 1 (by decide) "button#b1"
    ⟨"button#b1", "<button>", "button"⟩ (by decide) (by decide) (by decide)

/-- Claim C7, amended: the Unfocusable-Interactive Scanner returns zero
records (not one) for a visible `<button role="checkbox" tabindex="-1">`:
line 796 excludes every natively focusable tag — `button` among them —
regardless of its tab index.  (Spec section 4.5 describes this exclusion;
Scenario E contradicts it.) -/
theorem C7_button_never_reported (el : ScanElement) (h : el.tagName = "button") :
    scanUnfocusable [el] = [] := by
  have hkeep : scanKeeps el = false := by
    simp [scanKeeps, naturallyFocusableTags, h]
  cases hq : matchesInteractiveQuery el <;>
    simp [scanUnfocusable, List.filter, hq, hkeep]

/-- Claim C7, counterexample: the Scenario E element yields an empty scan
result, not exactly one record. -/
theorem C7_counterexample :
    scanUnfocusable [scenarioE] = [] ∧
    (scanUnfocusable [scenarioE]).length ≠ 1 := by
  decide

/-- Claim C7, witness: the amended statement evaluated at the Scenario E
element itself. -/
theorem C7_witness : scanUnfocusable [scenarioE] = [] :=
  C7_button_never_reported scenarioE rfl

/-- Claim C8: `keyboardToAxeViolationsFormat` emits a `keyboard-trap` record
iff `keyboardTraps` is non-empty, a `dialog-not-escapable` record iff some
`DialogEscape` was unsuccessful, an `interactive-not-focusable` record iff
`unfocusableInteractive` is non-empty, and nothing else; each record's
`nodes` list is the in-order image of its source list. -/
theorem C8_violations_characterization (r : KeyboardTestResult) :
    ((∃ v ∈ keyboardToAxeViolationsFormat r, v.id = "keyboard-trap") ↔
      r.keyboardTraps ≠ []) ∧
    ((∃ v ∈ keyboardToAxeViolationsFormat r, v.id = "dialog-not-escapable") ↔
      ∃ d ∈ r.dialogEscapes, d.escapedSuccessfully = false) ∧
    ((∃ v ∈ keyboardToAxeViolationsFormat r, v.id = "interactive-not-focusable") ↔
      r.unfocusableInteractive ≠ []) ∧
    (∀ v ∈ keyboardToAxeViolationsFormat r,
      (v.id = "keyboard-trap" →
        v.nodes = r.keyboardTraps.map
          (fun t => ⟨t.html, [t.selector], t.issue⟩)) ∧
      (v.id = "dialog-not-escapable" →
        v.nodes = (failedDialogEscapes r).map
          (fun d => ⟨d.dialogHtml, [d.dialogSelector], d.note⟩)) ∧
      (v.id = "interactive-not-focusable" →
        v.nodes = r.unfocusableInteractive.map
          (fun el => ⟨el.html, [el.selector], unfocusableSummary el.role⟩)) ∧
      (v.id = "keyboard-trap" ∨ v.id = "dialog-not-escapable" ∨
        v.id = "interactive-not-focusable")) := by
  have hfail : failedDialogEscapes r ≠ [] ↔
      ∃ d ∈ r.dialogEscapes, d.escapedSuccessfully = false := by
    simp [failedDialogEscapes, List.filter_eq_nil_iff]
  have ne1 : ("keyboard-trap" : String) ≠ "dialog-not-escapable" := by decide
  have ne2 : ("keyboard-trap" : String) ≠ "interactive-not-focusable" := by decide
  have ne3 : ("dialog-not-escapable" : String) ≠ "keyboard-trap" := by decide
  have ne4 : ("dialog-not-escapable" : String) ≠ "interactive-not-focusable" := by decide
  have ne5 : ("interactive-not-focusable" : String) ≠ "keyboard-trap" := by decide
  have ne6 : ("interactive-not-focusable" : String) ≠ "dialog-not-escapable" := by decide
  by_cases h1 : r.keyboardTraps = [] <;>
    by_cases h2 : failedDialogEscapes r = [] <;>
      by_cases h3 : r.unfocusableInteractive = [] <;>
        simp_all [keyboardToAxeViolationsFormat, trapViolation, dialogViolation,
          unfocusableViolation, List.length_pos, failedDialogEscapes,
          List.filter_eq_nil_iff]

/-- Claim C10: activation-path `DialogEscape` records bypass the 5-attempt
budget entirely: every `dialogEscapes` entry is counted by exactly one of
the two path counters, only the trap-path counter is budgeted, and a
concrete run of six dialog-opening buttons returns six `DialogEscape`
records while the budget counter stays 0. -/
theorem C10_activation_escapes_unbudgeted :
    (∀ (fc : Nat) (oracle : Nat → StepOracle) (n : Nat),
      (walkStates fc oracle n).dialogEscapes.length =
        (walkStates fc oracle n).trapPathEscapes +
          (walkStates fc oracle n).activationPathEscapes ∧
      (walkStates fc oracle n).trapPathEscapes ≤ maxDialogEscapes) ∧
    (runKeyboardTests 10 sixDialogOracle []).dialogEscapes.length = 6 ∧
    (walkStates 10 sixDialogOracle (maxTabs 10)).dialogEscapeAttempts = 0 ∧
    maxDialogEscapes < 6 := by
  refine ⟨?_, by decide, by decide, by decide⟩
  intro fc oracle n
  obtain ⟨-, -, h3, h4, h5, -⟩ := inv_walkStates fc oracle n
  exact ⟨h5, by omega⟩

/-- Claim C9: evaluation at the failing input.  `"toString"` is not an own
key of `WCAG_LEVEL_MAP`, matches no flexible pattern, yet `parseWcagLevel`
returns it verbatim instead of the documented default `2.1_AA`, because the
JavaScript `in` operator sees `Object.prototype.toString`. -/
theorem C9_toString_bug :
    parseWcagLevel (some "toString") = "toString" ∧
    wcagLevelKeys.contains "toString" = false ∧
    parseWcagLevel (some "toString") ≠ defaultWcagLevel := by
  decide

end A11yMCP
